import Mathlib

/-!
Shallow embedding of `src/snippets/code/python/fastapi-basic.py`, a small
FastAPI service ("DevHub API"): a bearer-token dependency, two pydantic
schemas, four routes, and their handlers.  Handlers are pure functions;
raised `HTTPException`s become `Except.error`; the `logger.info` call in
`create_user` is modelled as an explicit log output.
-/

namespace DevHub

/-- `fastapi.HTTPException`: status code, detail message and optional
extra response headers (`None` in Python becomes `none`). -/
structure HTTPException where
  status_code : Nat
  detail : String
  headers : Option (List (String × String))
deriving DecidableEq, Repr

/-- The guard of `verify_token`, line 49: `not token or token != "valid-token"`.
For a Python `str`, `not token` is true exactly when the string is empty. -/
def tokenGuard (token : String) : Bool :=
  token == "" || token != "valid-token"

/-- The simplified guard named by the spec: a single string inequality
`token != "valid-token"`. -/
def tokenGuardSimple (token : String) : Bool :=
  token != "valid-token"

/-- The 401 error raised by `verify_token` (lines 50–54). -/
def http401 : HTTPException :=
  { status_code := 401
    detail := "Invalid authentication credentials"
    headers := some [("WWW-Authenticate", "Bearer")] }

/-- `verify_token` (lines 46–55): the authentication dependency.  It
receives the presented bearer credentials, raises 401 when the guard
fires, and otherwise returns the token unchanged. -/
def verify_token (credentials : String) : Except HTTPException String :=
  let token := credentials
  if tokenGuard token then
    .error http401
  else
    .ok token

lemma tokenGuard_eq_true_iff (token : String) :
    tokenGuard token = true ↔ token ≠ "valid-token" := by
  unfold tokenGuard
  constructor
  · intro h hval
    subst hval
    simp at h
  · intro h
    simp [h]

/-- C10: in `verify_token`, the guard `not token or token != "valid-token"`
is equivalent, for every string token, to the simpler guard
`token != "valid-token"`: the empty string already differs from
`"valid-token"`, so the first disjunct is redundant. -/
theorem tokenGuard_redundant_disjunct (token : String) :
    tokenGuard token = tokenGuardSimple token := by
  by_cases h : token = "valid-token"
  · subst h
    rfl
  · have h1 : tokenGuard token = true := (tokenGuard_eq_true_iff token).mpr h
    have h2 : tokenGuardSimple token = true := by
      unfold tokenGuardSimple
      simp [h]
    rw [h1, h2]

/-- C1: `verify_token` raises an `HTTPException` with status 401 and header
`WWW-Authenticate: Bearer` if and only if the presented token differs from
`"valid-token"`; any error it raises is exactly that 401; and on
`"valid-token"` it returns the token unchanged. -/
theorem verify_token_spec (token : String) :
    (verify_token token = .error http401 ↔ token ≠ "valid-token") ∧
    (∀ e, verify_token token = .error e → e = http401) ∧
    (token = "valid-token" → verify_token token = .ok token) := by
  by_cases h : token = "valid-token"
  · subst h
    refine ⟨?_, ?_, ?_⟩
    · simp [verify_token, tokenGuard]
    · intro e he
      simp [verify_token, tokenGuard] at he
    · intro _
      rfl
  · have hg : tokenGuard token = true := (tokenGuard_eq_true_iff token).mpr h
    refine ⟨?_, ?_, ?_⟩
    · simp [verify_token, hg, h]
    · intro e he
      simp [verify_token, hg] at he
      exact he.symm
    · intro hval
      exact absurd hval h

/-- Witness for C1 at the concrete token `"wrong"`. -/
theorem verify_token_spec_witness :
    verify_token "wrong" = .error http401 :=
  (verify_token_spec "wrong").1.mpr (by decide)

/-! ### Pydantic schemas (lines 36–43)

`UserCreate.email` carries `Field(..., regex=r'^[^@]+@[^@]+\.[^@]+$')`.
The anchored pattern is a sequence of atoms: a one-or-more character
class, a literal, applied in order to the whole string.  We embed that
pattern as a list of atoms with a declarative matching relation and an
executable backtracking matcher, proved equivalent. -/

/-- One atom of an anchored regular expression: a literal character, or a
one-or-more repetition of a character class. -/
inductive RegexAtom where
  | lit (c : Char)
  | classPlus (p : Char → Bool)

/-- Declarative matching for a single atom. -/
def RegexAtom.Matches : RegexAtom → List Char → Prop
  | .lit c, l => l = [c]
  | .classPlus p, l => l ≠ [] ∧ ∀ c ∈ l, p c = true

/-- Executable matching for a single atom. -/
def RegexAtom.matchB : RegexAtom → List Char → Bool
  | .lit c, [d] => d == c
  | .lit _, _ => false
  | .classPlus p, l => !l.isEmpty && l.all p

/-- Declarative matching of a sequence of atoms against the whole string:
the string splits into consecutive pieces, one per atom. -/
def SeqMatches : List RegexAtom → List Char → Prop
  | [], l => l = []
  | a :: rest, l => ∃ l1 l2, l = l1 ++ l2 ∧ a.Matches l1 ∧ SeqMatches rest l2

/-- Executable backtracking matcher for a sequence of atoms: try every
split point for the first atom. -/
def seqMatchB : List RegexAtom → List Char → Bool
  | [], l => l.isEmpty
  | a :: rest, l =>
      (List.range (l.length + 1)).any fun i =>
        a.matchB (l.take i) && seqMatchB rest (l.drop i)

/-- The pattern `^[^@]+@[^@]+\.[^@]+$` of line 38, atom by atom. -/
def emailPattern : List RegexAtom :=
  [.classPlus (· != '@'), .lit '@', .classPlus (· != '@'), .lit '.',
   .classPlus (· != '@')]

/-- `UserCreate` (lines 36–38): the request schema for `POST /users`. -/
structure UserCreate where
  username : String
  email : String
deriving DecidableEq, Repr

/-- `UserResponse` (lines 40–43): an integer id and string username and
email. -/
structure UserResponse where
  id : Int
  username : String
  email : String
deriving DecidableEq, Repr

/-- Validation performed by the `UserCreate` schema: `username` has
`min_length=3, max_length=50` and `email` matches the regex of line 38. -/
def validUserCreate (u : UserCreate) : Bool :=
  3 ≤ u.username.length && u.username.length ≤ 50 &&
    seqMatchB emailPattern u.email.data

lemma RegexAtom.matchB_iff (a : RegexAtom) (l : List Char) :
    a.matchB l = true ↔ a.Matches l := by
  cases a with
  | lit c =>
      cases l with
      | nil => simp [matchB, Matches]
      | cons d t =>
          cases t with
          | nil => simp [matchB, Matches]
          | cons d2 t2 => simp [matchB, Matches]
  | classPlus p =>
      simp [matchB, Matches, List.all_eq_true, List.isEmpty_iff]

lemma seqMatchB_iff (as : List RegexAtom) (l : List Char) :
    seqMatchB as l = true ↔ SeqMatches as l := by
  induction as generalizing l with
  | nil => simp [seqMatchB, SeqMatches, List.isEmpty_iff]
  | cons a rest ih =>
      unfold seqMatchB SeqMatches
      rw [List.any_eq_true]
      constructor
      · rintro ⟨i, _, hmatch⟩
        rw [Bool.and_eq_true] at hmatch
        exact ⟨l.take i, l.drop i, (List.take_append_drop i l).symm,
          (RegexAtom.matchB_iff a _).mp hmatch.1, (ih _).mp hmatch.2⟩
      · rintro ⟨l1, l2, hsplit, ha, hrest⟩
        refine ⟨l1.length, ?_, ?_⟩
        · rw [List.mem_range, hsplit]
          simp
          omega
        · rw [Bool.and_eq_true, hsplit, List.take_left, List.drop_left]
          exact ⟨(RegexAtom.matchB_iff a l1).mpr ha, (ih l2).mpr hrest⟩

/-- C3: the `UserCreate` schema accepts an input if and only if its
username has length at least 3 and at most 50 and its email matches the
regular expression of line 38; `UserResponse` is exactly an integer id
with string username and email (its fields determine it). -/
theorem user_create_schema (u : UserCreate) :
    (validUserCreate u = true ↔
      (3 ≤ u.username.length ∧ u.username.length ≤ 50 ∧
        SeqMatches emailPattern u.email.data)) ∧
    (∀ r : UserResponse, r = ⟨r.id, r.username, r.email⟩) := by
  constructor
  · unfold validUserCreate
    rw [Bool.and_eq_true, Bool.and_eq_true, seqMatchB_iff]
    simp [and_assoc]
  · intro r
    rfl

/-! ### Routes and handlers (lines 57–95) -/

/-- An HTTP method used by the app. -/
inductive Method where
  | GET
  | POST
deriving DecidableEq, Repr

/-- One registered route: method and path pattern. -/
structure Route where
  method : Method
  path : String
deriving DecidableEq, Repr

/-- The route table built by the four decorators (lines 58, 62, 66, 79),
in registration order. -/
def routes : List Route :=
  [⟨.GET, "/"⟩, ⟨.GET, "/health"⟩, ⟨.POST, "/users"⟩,
   ⟨.GET, "/users/{user_id}"⟩]

/-- `root` (lines 58–60): the body returned by `GET /`. -/
def root : List (String × String) :=
  [("message", "Welcome to DevHub API")]

/-- `health_check` (lines 62–64): the body returned by `GET /health`. -/
def health_check : List (String × String) :=
  [("status", "healthy"), ("service", "devhub-api")]

/-- Body of `create_user` (lines 66–77) after its dependencies succeed:
it logs `"Creating user: {username}"` and returns
`UserResponse(id=1, username=..., email=...)`. -/
def create_user (user : UserCreate) : List String × UserResponse :=
  (["Creating user: " ++ user.username],
   { id := 1, username := user.username, email := user.email })

/-- The 400 error raised by `get_user` (lines 85–88); no extra headers. -/
def http400 : HTTPException :=
  { status_code := 400, detail := "Invalid user ID", headers := none }

/-- Body of `get_user` (lines 79–95) after its dependencies succeed:
raises 400 for `user_id <= 0`, otherwise returns the mock user. -/
def get_user (user_id : Int) : Except HTTPException UserResponse :=
  if user_id ≤ 0 then
    .error http400
  else
    .ok { id := user_id, username := "john_doe", email := "john@example.com" }

/-- A successful response body: a JSON object of string fields (for
`root` and `health_check`) or a `UserResponse`. -/
inductive Response where
  | jsonObj (fields : List (String × String))
  | userObj (u : UserResponse)
deriving DecidableEq, Repr

/-- A parsed request to one of the four registered routes, carrying the
handler's arguments. -/
inductive RequestTarget where
  | toRoot
  | toHealth
  | toCreateUser (user : UserCreate)
  | toGetUser (user_id : Int)
deriving DecidableEq, Repr

/-- Dispatch one request given the presented bearer credentials.  The
framework first runs the `verify_token` dependency of the two protected
routes; only if it succeeds does the handler body run.  The first
component collects the log lines emitted by the handler body. -/
def handle : RequestTarget → String → List String × Except HTTPException Response
  | .toRoot, _ => ([], .ok (.jsonObj root))
  | .toHealth, _ => ([], .ok (.jsonObj health_check))
  | .toCreateUser user, bearer =>
      match verify_token bearer with
      | .error e => ([], .error e)
      | .ok _ =>
          let r := create_user user
          (r.1, .ok (.userObj r.2))
  | .toGetUser user_id, bearer =>
      match verify_token bearer with
      | .error e => ([], .error e)
      | .ok _ => ([], (get_user user_id).map .userObj)

/-- The server loop: each request is answered by `handle` alone; there is
no state carried between requests. -/
def serve (reqs : List (RequestTarget × String)) :
    List (List String × Except HTTPException Response) :=
  reqs.map fun r => handle r.1 r.2

lemma verify_token_valid : verify_token "valid-token" = .ok "valid-token" := rfl

lemma verify_token_invalid (bearer : String) (h : bearer ≠ "valid-token") :
    verify_token bearer = .error http401 := by
  unfold verify_token
  rw [if_pos ((tokenGuard_eq_true_iff bearer).mpr h)]

/-- C5: the application registers exactly four routes — `GET /`,
`GET /health`, `POST /users` and `GET /users/{user_id}` — and no others. -/
theorem routes_exactly_four :
    routes.length = 4 ∧
    ∀ r, r ∈ routes ↔
      (r = ⟨.GET, "/"⟩ ∨ r = ⟨.GET, "/health"⟩ ∨ r = ⟨.POST, "/users"⟩ ∨
       r = ⟨.GET, "/users/{user_id}"⟩) := by
  refine ⟨rfl, ?_⟩
  intro r
  simp [routes]

/-- C7: `GET /` always returns `{"message": "Welcome to DevHub API"}` and
`GET /health` always returns `{"status": "healthy", "service":
"devhub-api"}`, whatever credentials accompany the request. -/
theorem root_health_constant (bearer : String) :
    handle .toRoot bearer =
      ([], .ok (.jsonObj [("message", "Welcome to DevHub API")])) ∧
    handle .toHealth bearer =
      ([], .ok (.jsonObj [("status", "healthy"), ("service", "devhub-api")])) :=
  ⟨rfl, rfl⟩

/-- C4: the routes guarded by `verify_token` are exactly `POST /users` and
`GET /users/{user_id}`: whenever the presented token differs from
`"valid-token"`, both respond 401 with an empty log (the handler body
never ran), while `GET /` and `GET /health` answer the same for every
token. -/
theorem protected_routes (bearer : String) (h : bearer ≠ "valid-token") :
    (∀ user, handle (.toCreateUser user) bearer = ([], .error http401)) ∧
    (∀ user_id, handle (.toGetUser user_id) bearer = ([], .error http401)) ∧
    (∀ b, handle .toRoot b = handle .toRoot bearer ∧
          handle .toHealth b = handle .toHealth bearer) := by
  have hv := verify_token_invalid bearer h
  refine ⟨?_, ?_, ?_⟩
  · intro user
    simp [handle, hv]
  · intro user_id
    simp [handle, hv]
  · intro b
    exact ⟨rfl, rfl⟩

/-- Witness for C4 at the concrete token `"bad"`. -/
theorem protected_routes_witness :
    handle (.toCreateUser ⟨"john", "a@b.c"⟩) "bad" = ([], .error http401) ∧
    handle (.toGetUser 7) "bad" = ([], .error http401) :=
  ⟨(protected_routes "bad" (by decide)).1 ⟨"john", "a@b.c"⟩,
   (protected_routes "bad" (by decide)).2.1 7⟩

/-- C8: for every integer `user_id`, an authenticated `GET /users/{user_id}`
answers the 400 error `"Invalid user ID"` if and only if `user_id <= 0`,
and for `user_id > 0` returns
`UserResponse(id=user_id, username="john_doe", email="john@example.com")`. -/
theorem get_user_spec (user_id : Int) :
    (handle (.toGetUser user_id) "valid-token" = ([], .error http400) ↔
      user_id ≤ 0) ∧
    (0 < user_id → handle (.toGetUser user_id) "valid-token" =
      ([], .ok (.userObj ⟨user_id, "john_doe", "john@example.com"⟩))) := by
  constructor
  · by_cases h : user_id ≤ 0
    · simp [handle, verify_token_valid, get_user, h, Except.map]
    · simp [handle, verify_token_valid, get_user, h, Except.map]
  · intro h
    simp [handle, verify_token_valid, get_user, Int.not_le.mpr h,
      Except.map]

/-- Witness for C8 at `user_id = 5` and `user_id = 0`. -/
theorem get_user_spec_witness :
    handle (.toGetUser 5) "valid-token" =
      ([], .ok (.userObj ⟨5, "john_doe", "john@example.com"⟩)) ∧
    handle (.toGetUser 0) "valid-token" = ([], .error http400) :=
  ⟨(get_user_spec 5).2 (by decide), (get_user_spec 0).1.mpr (by decide)⟩

/-- C9: for every valid `UserCreate` input, an authenticated `POST /users`
returns a `UserResponse` with `id = 1` and the input's username and email
unchanged (and logs the creation). -/
theorem create_user_spec (user : UserCreate) (_h : validUserCreate user = true) :
    handle (.toCreateUser user) "valid-token" =
      (["Creating user: " ++ user.username],
       .ok (.userObj ⟨1, user.username, user.email⟩)) := by
  simp [handle, verify_token_valid, create_user]

/-- Witness for C9 at a concrete valid input. -/
theorem create_user_spec_witness :
    handle (.toCreateUser ⟨"john", "a@b.c"⟩) "valid-token" =
      (["Creating user: john"], .ok (.userObj ⟨1, "john", "a@b.c"⟩)) :=
  create_user_spec ⟨"john", "a@b.c"⟩ (by decide)

/-- C6: the service holds no state between requests: the answer at any
position of a served request sequence depends only on the request at that
position, not on any earlier request. -/
theorem serve_history_independent (r1 r2 : List (RequestTarget × String))
    (i : Nat) (h : r1[i]? = r2[i]?) :
    (serve r1)[i]? = (serve r2)[i]? := by
  simp [serve, List.getElem?_map, h]

/-- Witness for C6: two sequences agreeing at position 0 but not later
give the same answer at position 0. -/
theorem serve_history_independent_witness :
    (serve [(.toRoot, "x")])[0]? =
      (serve [(.toRoot, "x"), (.toHealth, "y")])[0]? :=
  serve_history_independent [(.toRoot, "x")]
    [(.toRoot, "x"), (.toHealth, "y")] 0 rfl

/-- Counterexample to C2 as stated: on an authenticated
`GET /users/0`, the `get_user` handler body runs after its dependency
succeeded and raises an `HTTPException` of its own construction
(status 400, detail `"Invalid user ID"`). -/
theorem get_user_constructs_own_error :
    handle (.toGetUser 0) "valid-token" = ([], .error http400) := by
  simp [handle, verify_token_valid, get_user, Except.map]

/-- C2 amended: the only handler-constructed HTTP error raised after the
dependencies succeed is `get_user`'s 400 `"Invalid user ID"`, raised
exactly when the requested `user_id` is non-positive; no other handler
raises one. -/
theorem handlers_error_only_get_user (t : RequestTarget) (e : HTTPException)
    (h : (handle t "valid-token").2 = .error e) :
    e = http400 ∧ ∃ user_id, user_id ≤ 0 ∧ t = .toGetUser user_id := by
  cases t with
  | toRoot => simp [handle] at h
  | toHealth => simp [handle] at h
  | toCreateUser user => simp [handle, verify_token_valid, create_user] at h
  | toGetUser user_id =>
      by_cases huid : user_id ≤ 0
      · simp [handle, verify_token_valid, get_user, huid, Except.map] at h
        exact ⟨h.symm, user_id, huid, rfl⟩
      · simp [handle, verify_token_valid, get_user, huid, Except.map] at h

/-- Witness for the amended C2 at the concrete request for user id -3. -/
theorem handlers_error_only_get_user_witness :
    http400 = http400 ∧
    ∃ user_id, user_id ≤ 0 ∧
      (RequestTarget.toGetUser (-3)) = .toGetUser user_id :=
  handlers_error_only_get_user (.toGetUser (-3)) http400 rfl

end DevHub
